import Mathlib

/-!
Shallow embedding of
src/containers/EditListingPage/EditListingWizard/EditListingDetailsPanel/EditListingDetailsForm.js

The file is a React form component.  Rendering is pure: we model each helper
component as a Lean function from its props to an explicit description of the
rendered output, and the form-state API (react-final-form) as a map from field
names to optional string values.  Imported helpers that are not part of the
repository snapshot (the validator constructors from util/validators, the
EXTENDED_DATA_SCHEMA_TYPES constant from util/types, and the intl message
lookup) are modelled abstractly: validators as syntax trees, the schema-type
list and the intl lookup as parameters, so every theorem holds for all of
their possible values.
-/

namespace EditListingDetailsForm

/-- Internationalization lookup (the injected `intl` object).  `formatMessage`
is lookup by message id; `formatMessageWithMaxLength` is the one call site
that interpolates a `maxLength` value into the message. -/
structure Intl where
  formatMessage : String → String
  formatMessageWithMaxLength : String → Nat → String

/-- Validators from util/validators, modelled as syntax trees: the claims are
about which validators are wired onto which field, not about their runtime
behaviour.  `composeValidators` is called with exactly two arguments in this
file, so it is modelled as a binary node. -/
inductive Validator where
  | required (message : String)
  | maxLength (message : String) (limit : Nat)
  | composeValidators (first second : Validator)
  deriving DecidableEq, Repr

/-- js: `const TITLE_MAX_LENGTH = 60;` (line 19). -/
def TITLE_MAX_LENGTH : Nat := 60

/-- The `fetchErrors` prop: presence of each error object is modelled as a
Bool (JS truthiness of the error value). -/
structure FetchErrors where
  updateListingError : Bool
  createListingDraftError : Bool
  showListingsError : Bool
  deriving DecidableEq, Repr

/-- js `ErrorMessage` (lines 22-37).  The rendered output is the id of the
FormattedMessage wrapped in the error paragraph, or `none` when no error
paragraph is rendered.  `fetchErrors || \x7b\x7d` is `Option.getD` on the
record of flags. -/
def ErrorMessage (fetchErrors : Option FetchErrors) : Option String :=
  let e := fetchErrors.getD ⟨false, false, false⟩
  if e.updateListingError then some "EditListingDetailsForm.updateFailed"
  else if e.createListingDraftError then some "EditListingDetailsForm.createListingDraftError"
  else if e.showListingsError then some "EditListingDetailsForm.showListingFailed"
  else none

/-- One entry of the `selectableListingTypes` prop (propTypes, lines 278-284):
listingType, transactionProcessAlias and unitType are required strings; label
is read by the option renderer. -/
structure ListingTypeConfig where
  listingType : String
  transactionProcessAlias : String
  unitType : String
  label : String
  deriving DecidableEq, Repr

/-- The react-final-form state visible through `formApi`: a map from field
name to the field value (`none` models an unregistered field or an undefined
value, as read through `formApi.getFieldState(name)?.value`). -/
def FormState : Type := String → Option String

/-- js `formApi.change(name, v)`: point update of the form state. -/
def formChange (formState : FormState) (name : String) (v : String) : FormState :=
  fun k => if k = name then some v else formState k

/-- One `<option>` element of the listing-type `FieldSelect`. -/
structure SelectOption where
  disabled : Bool
  value : String
  text : String
  deriving DecidableEq, Repr

/-- The elements rendered by `FieldSelectListingType`: the interactive
select (with its label, required validator and option list), a hidden input
field (`FieldHidden`), or the read-only heading-plus-value display of the
branch for an existing listing type. -/
inductive FieldNode where
  | fieldSelect (id name selectLabel : String) (validate : Validator)
      (options : List SelectOption)
  | fieldHidden (name : String)
  | headingWithValue (headingText : String) (selectedValue : Option String)
  deriving DecidableEq, Repr

/-- js `handleOnChange` (lines 58-69), lifted out of the closure: the captured
`listingTypes`, the presence of the optional `onProcessChange` callback and
the form state are explicit arguments.  The result is `none` when
`listingTypes.find` returns undefined and the subsequent property read
throws (before any form-state change); otherwise it is the updated form
state paired with the argument of the `onProcessChange` invocation
(`none` when the callback is not invoked). -/
def handleOnChange (listingTypes : List ListingTypeConfig) (hasOnProcessChange : Bool)
    (formState : FormState) (value : String) : Option (FormState × Option String) :=
  let transactionProcessAlias := formState "transactionProcessAlias"
  match listingTypes.find? (fun config => config.listingType == value) with
  | none => none
  | some selectedListingType =>
    let formState1 :=
      formChange formState "transactionProcessAlias" selectedListingType.transactionProcessAlias
    let formState2 := formChange formState1 "unitType" selectedListingType.unitType
    let hasProcessChanged :=
      transactionProcessAlias != some selectedListingType.transactionProcessAlias
    some (formState2,
      if hasOnProcessChange && hasProcessChanged then
        some selectedListingType.transactionProcessAlias
      else none)

/-- js `FieldSelectListingType` (lines 54-115): the list of elements it
renders.  `formState` stands for the captured `formApi`; its `getFieldState`
read of the current listing-type value appears in the read-only branch. -/
def FieldSelectListingType (name : String) (listingTypes : List ListingTypeConfig)
    (hasExistingListingType : Bool) (formState : FormState) (intl : Intl) : List FieldNode :=
  let hasMultipleListingTypes := decide (listingTypes.length > 1)
  if hasMultipleListingTypes && !hasExistingListingType then
    [FieldNode.fieldSelect name name
        (intl.formatMessage "EditListingDetailsForm.listingTypeLabel")
        (Validator.required (intl.formatMessage "EditListingDetailsForm.listingTypeRequired"))
        (SelectOption.mk true ""
            (intl.formatMessage "EditListingDetailsForm.listingTypePlaceholder")
          :: listingTypes.map fun config =>
              SelectOption.mk false config.listingType config.label),
      FieldNode.fieldHidden "transactionProcessAlias",
      FieldNode.fieldHidden "unitType"]
  else if hasMultipleListingTypes && hasExistingListingType then
    [FieldNode.headingWithValue
        (intl.formatMessage "EditListingDetailsForm.listingTypeLabel") (formState name),
      FieldNode.fieldHidden name,
      FieldNode.fieldHidden "transactionProcessAlias",
      FieldNode.fieldHidden "unitType"]
  else
    [FieldNode.fieldHidden name,
      FieldNode.fieldHidden "transactionProcessAlias",
      FieldNode.fieldHidden "unitType"]

/-- One entry of the `listingExtendedDataConfig` prop, as destructured on
line 122: the four properties the filter reads.  Each is optional, matching
JS undefined. -/
structure ExtendedDataConfigRecord where
  key : Option String
  includeForListingTypes : Option (List String)
  schemaType : Option String
  scope : Option String
  deriving DecidableEq, Repr

/-- Destructuring `extendedDataConfig || \x7b\x7d` when the entry is null:
every property reads undefined. -/
def emptyExtendedDataConfig : ExtendedDataConfigRecord :=
  ⟨none, none, none, none⟩

/-- js `list.includes(x)` where `x` may be undefined: membership of an
optional string in a string list; `undefined` is never a member. -/
def includesOpt (l : List String) (x : Option String) : Bool :=
  match x with
  | some s => l.contains s
  | none => false

/-- One `CustomExtendedDataField` element rendered by
`AddCustomExtendedDataFields` (lines 132-139): its key and name are the
destructured `key`, `fieldConfig` is the original list entry, and the
default required message comes from intl. -/
structure CustomField where
  key : Option String
  name : Option String
  fieldConfig : Option ExtendedDataConfigRecord
  defaultRequiredMessage : String
  deriving DecidableEq, Repr

/-- The element built for a picked configuration entry (lines 132-139). -/
def mkCustomExtendedDataField (intl : Intl) (extendedDataConfig : Option ExtendedDataConfigRecord) :
    CustomField :=
  let c := extendedDataConfig.getD emptyExtendedDataConfig
  ⟨c.key, c.key, extendedDataConfig,
    intl.formatMessage "EditListingDetailsForm.defaultRequiredMessage"⟩

/-- The condition of the reduce on lines 124-129: known schema type,
listing-type inclusion (vacuous when `includeForListingTypes == null`) and
provider scope.  `EXTENDED_DATA_SCHEMA_TYPES` is imported from util/types,
which is outside the repository snapshot, so it is the explicit parameter
`EXTENDED_DATA_SCHEMA_TYPES` here. -/
def isPickedConfig (EXTENDED_DATA_SCHEMA_TYPES : List String) (listingType : Option String)
    (extendedDataConfig : Option ExtendedDataConfigRecord) : Bool :=
  let c := extendedDataConfig.getD emptyExtendedDataConfig
  let isKnownSchemaType := includesOpt EXTENDED_DATA_SCHEMA_TYPES c.schemaType
  let isTargetProcessAlias :=
    match c.includeForListingTypes with
    | none => true
    | some l => includesOpt l listingType
  let isProviderScope := includesOpt ["public", "private"] c.scope
  isKnownSchemaType && isTargetProcessAlias && isProviderScope

/-- js `AddCustomExtendedDataFields` (lines 118-145): the list of
`CustomExtendedDataField` elements accumulated by the reduce.
`listingExtendedDataConfig || []` is `Option.getD`; the entries themselves
may be null. -/
def AddCustomExtendedDataFields (EXTENDED_DATA_SCHEMA_TYPES : List String)
    (listingType : Option String)
    (listingExtendedDataConfig : Option (List (Option ExtendedDataConfigRecord)))
    (intl : Intl) : List CustomField :=
  let extendedDataConfigs := listingExtendedDataConfig.getD []
  extendedDataConfigs.foldl
    (fun pickedFields extendedDataConfig =>
      if isPickedConfig EXTENDED_DATA_SCHEMA_TYPES listingType extendedDataConfig then
        pickedFields ++ [mkCustomExtendedDataField intl extendedDataConfig]
      else pickedFields)
    []

/-- A `FieldTextInput` element as rendered for title and description
(lines 197-223): id, name, input type, label, placeholder, the optional
maxLength attribute and the validator wired on it. -/
structure TextInputField where
  id : String
  name : String
  inputType : String
  fieldLabel : String
  placeholder : String
  maxLengthAttr : Option Nat
  validate : Validator
  deriving DecidableEq, Repr

/-- The submit `Button` (lines 240-248). -/
structure ButtonNode where
  buttonType : String
  inProgress : Bool
  disabled : Bool
  ready : Bool
  labelText : String
  deriving DecidableEq, Repr

/-- The render props destructured on lines 154-173, with the form values and
state the render body reads.  `handleSubmit` is the opaque function handed
over by react-final-form, of abstract type `α`; `hasOnProcessChange` models
the presence of the optional callback; `listingTypeValue` is
`values.listingType` (line 175); `formState` stands for `formApi`. -/
structure FormRenderProps (α : Type) where
  autoFocus : Bool
  disabled : Bool
  ready : Bool
  formState : FormState
  handleSubmit : α
  hasOnProcessChange : Bool
  intl : Intl
  invalid : Bool
  pristine : Bool
  selectableListingTypes : List ListingTypeConfig
  hasExistingListingType : Bool
  saveActionMsg : String
  updated : Bool
  updateInProgress : Bool
  fetchErrors : Option FetchErrors
  listingExtendedDataConfig : Option (List (Option ExtendedDataConfigRecord))
  listingTypeValue : Option String

/-- The output of one render of the component: the `Form` element's onSubmit
handler and its children in order (lines 193-250). -/
structure RenderedForm (α : Type) where
  onSubmit : α
  errorMessage : Option String
  title : TextInputField
  description : TextInputField
  listingTypeFields : List FieldNode
  customFields : List CustomField
  submitButton : ButtonNode

/-- js `EditListingDetailsFormComponent`s render function (lines 149-253),
with the imported `EXTENDED_DATA_SCHEMA_TYPES` constant as an explicit
parameter. -/
def EditListingDetailsFormComponent {α : Type} (EXTENDED_DATA_SCHEMA_TYPES : List String)
    (p : FormRenderProps α) : RenderedForm α :=
  let titleRequiredMessage := p.intl.formatMessage "EditListingDetailsForm.titleRequired"
  let maxLengthMessage :=
    p.intl.formatMessageWithMaxLength "EditListingDetailsForm.maxLength" TITLE_MAX_LENGTH
  let maxLength60Message := Validator.maxLength maxLengthMessage TITLE_MAX_LENGTH
  { onSubmit := p.handleSubmit
    errorMessage := ErrorMessage p.fetchErrors
    title :=
      { id := "title"
        name := "title"
        inputType := "text"
        fieldLabel := p.intl.formatMessage "EditListingDetailsForm.title"
        placeholder := p.intl.formatMessage "EditListingDetailsForm.titlePlaceholder"
        maxLengthAttr := some TITLE_MAX_LENGTH
        validate :=
          Validator.composeValidators (Validator.required titleRequiredMessage)
            maxLength60Message }
    description :=
      { id := "description"
        name := "description"
        inputType := "textarea"
        fieldLabel := p.intl.formatMessage "EditListingDetailsForm.description"
        placeholder := p.intl.formatMessage "EditListingDetailsForm.descriptionPlaceholder"
        maxLengthAttr := none
        validate :=
          Validator.required
            (p.intl.formatMessage "EditListingDetailsForm.descriptionRequired") }
    listingTypeFields :=
      FieldSelectListingType "listingType" p.selectableListingTypes
        p.hasExistingListingType p.formState p.intl
    customFields :=
      AddCustomExtendedDataFields EXTENDED_DATA_SCHEMA_TYPES p.listingTypeValue
        p.listingExtendedDataConfig p.intl
    submitButton :=
      { buttonType := "submit"
        inProgress := p.updateInProgress
        disabled := p.invalid || p.disabled || p.updateInProgress
        ready := (p.updated && p.pristine) || p.ready
        labelText := p.saveActionMsg } }

/-! Concrete sample data used by witness theorems. -/

/-- An intl lookup that returns the message id itself, for concrete tests. -/
def testIntl : Intl := ⟨fun id => id, fun id n => id ++ toString n⟩

/-- A sample listing-type configuration. -/
def sampleListingType : ListingTypeConfig :=
  ⟨"rent-bicycles", "flex-booking-default/release-1", "day", "Rent bicycles"⟩

/-- A second sample listing-type configuration. -/
def sampleListingType2 : ListingTypeConfig :=
  ⟨"sell-bicycles", "flex-product-default/release-1", "item", "Sell bicycles"⟩

/-- A sample form state with no registered fields. -/
def sampleFormState : FormState := fun _ => none

/-- The form state produced by `handleOnChange` on `sampleFormState` when
`sampleListingType` is selected. -/
def sampleNewState : FormState :=
  formChange (formChange sampleFormState "transactionProcessAlias" "flex-booking-default/release-1")
    "unitType" "day"

/-! Theorems. -/

/-- The reduce of `AddCustomExtendedDataFields`, which appends the rendered
field for every picked configuration, is a filterMap over the configuration
list prefixed by the accumulator. -/
theorem foldl_pick_eq_filterMap (EXTENDED_DATA_SCHEMA_TYPES : List String)
    (listingType : Option String) (intl : Intl)
    (cfgs : List (Option ExtendedDataConfigRecord)) (acc : List CustomField) :
    cfgs.foldl
        (fun pickedFields extendedDataConfig =>
          if isPickedConfig EXTENDED_DATA_SCHEMA_TYPES listingType extendedDataConfig then
            pickedFields ++ [mkCustomExtendedDataField intl extendedDataConfig]
          else pickedFields)
        acc =
      acc ++ cfgs.filterMap
        (fun extendedDataConfig =>
          if isPickedConfig EXTENDED_DATA_SCHEMA_TYPES listingType extendedDataConfig then
            some (mkCustomExtendedDataField intl extendedDataConfig)
          else none) := by
  induction cfgs generalizing acc with
  | nil => simp
  | cons head tail ih =>
    by_cases h : isPickedConfig EXTENDED_DATA_SCHEMA_TYPES listingType head
    · simp [h, ih, List.filterMap_cons]
    · simp [h, ih, List.filterMap_cons]

/-- C1: for every listing type and configuration list,
`AddCustomExtendedDataFields` renders a custom field for exactly those
entries whose schemaType is a known extended-data schema type, whose
includeForListingTypes is absent or contains the listing type, and whose
scope is public or private; order is preserved and every other entry
contributes nothing. -/
theorem addCustomExtendedDataFields_picks_exactly (EXTENDED_DATA_SCHEMA_TYPES : List String)
    (listingType : Option String) (cfgs : List (Option ExtendedDataConfigRecord)) (intl : Intl) :
    AddCustomExtendedDataFields EXTENDED_DATA_SCHEMA_TYPES listingType (some cfgs) intl =
      cfgs.filterMap
        (fun extendedDataConfig =>
          let c := extendedDataConfig.getD emptyExtendedDataConfig
          if includesOpt EXTENDED_DATA_SCHEMA_TYPES c.schemaType
              && (match c.includeForListingTypes with
                  | none => true
                  | some l => includesOpt l listingType)
              && includesOpt ["public", "private"] c.scope then
            some (mkCustomExtendedDataField intl extendedDataConfig)
          else none) := by
  unfold AddCustomExtendedDataFields
  rw [Option.getD_some, foldl_pick_eq_filterMap]
  simp [isPickedConfig]

/-- C10: `AddCustomExtendedDataFields` is total on degenerate inputs: a null
configuration list yields no fields, and a null entry inside the list is
skipped (its undefined schemaType fails the known-schema-type check), leaving
the result unchanged. -/
theorem addCustomExtendedDataFields_degenerate (EXTENDED_DATA_SCHEMA_TYPES : List String)
    (listingType : Option String) (intl : Intl) :
    AddCustomExtendedDataFields EXTENDED_DATA_SCHEMA_TYPES listingType none intl = [] ∧
    ∀ before after : List (Option ExtendedDataConfigRecord),
      AddCustomExtendedDataFields EXTENDED_DATA_SCHEMA_TYPES listingType
          (some (before ++ none :: after)) intl =
        AddCustomExtendedDataFields EXTENDED_DATA_SCHEMA_TYPES listingType
          (some (before ++ after)) intl := by
  constructor
  · rfl
  · intro before after
    unfold AddCustomExtendedDataFields
    rw [Option.getD_some, Option.getD_some, foldl_pick_eq_filterMap, foldl_pick_eq_filterMap]
    simp [List.filterMap_append, List.filterMap_cons, isPickedConfig, includesOpt,
      emptyExtendedDataConfig]

/-- C2: `ErrorMessage` renders at most one of the three static messages with
fixed priority update-failed, then create-draft, then show-listing, and
renders nothing when `fetchErrors` is absent or all three flags are absent. -/
theorem errorMessage_priority :
    ErrorMessage none = none ∧
    ErrorMessage (some ⟨false, false, false⟩) = none ∧
    ∀ e : FetchErrors,
      ErrorMessage (some e) =
        if e.updateListingError then some "EditListingDetailsForm.updateFailed"
        else if e.createListingDraftError then
          some "EditListingDetailsForm.createListingDraftError"
        else if e.showListingsError then some "EditListingDetailsForm.showListingFailed"
        else none :=
  ⟨rfl, rfl, fun _ => rfl⟩

/-- C3: when the selected value matches a configuration, the process-change
callback is invoked exactly when a callback is provided and the
transactionProcessAlias stored in form state before the change differs from
the selected configuration value, and its argument is that configuration
value. -/
theorem handleOnChange_callback (listingTypes : List ListingTypeConfig)
    (hasOnProcessChange : Bool) (formState : FormState) (value : String)
    (cfg : ListingTypeConfig)
    (hfind : listingTypes.find? (fun config => config.listingType == value) = some cfg) :
    (handleOnChange listingTypes hasOnProcessChange formState value).map Prod.snd =
      some (if hasOnProcessChange
              && (formState "transactionProcessAlias" != some cfg.transactionProcessAlias) then
              some cfg.transactionProcessAlias
            else none) := by
  simp [handleOnChange, hfind]

/-- Witness for C3 at a concrete input: the callback fires with the selected
configuration alias when the prior alias is unset. -/
theorem handleOnChange_callback_witness :
    (handleOnChange [sampleListingType] true sampleFormState "rent-bicycles").map Prod.snd =
      some (if true
              && (sampleFormState "transactionProcessAlias"
                    != some sampleListingType.transactionProcessAlias) then
              some sampleListingType.transactionProcessAlias
            else none) :=
  handleOnChange_callback [sampleListingType] true sampleFormState "rent-bicycles"
    sampleListingType (by decide)

/-- C5: when the selected value matches a configuration, `handleOnChange`
sets exactly the fields transactionProcessAlias and unitType to the matching
configuration values and leaves every other form field unchanged. -/
theorem handleOnChange_frame (listingTypes : List ListingTypeConfig)
    (hasOnProcessChange : Bool) (formState : FormState) (value : String)
    (cfg : ListingTypeConfig)
    (hfind : listingTypes.find? (fun config => config.listingType == value) = some cfg) :
    ∀ newState cb,
      handleOnChange listingTypes hasOnProcessChange formState value = some (newState, cb) →
        newState "transactionProcessAlias" = some cfg.transactionProcessAlias ∧
        newState "unitType" = some cfg.unitType ∧
        ∀ k, k ≠ "transactionProcessAlias" → k ≠ "unitType" → newState k = formState k := by
  intro newState cb h
  simp only [handleOnChange, hfind, Option.some.injEq, Prod.mk.injEq] at h
  obtain ⟨hstate, _⟩ := h
  subst hstate
  refine ⟨by simp [formChange], by simp [formChange], ?_⟩
  intro k hk1 hk2
  simp [formChange, hk1, hk2]

/-- Witness for C5 at a concrete input: after selecting the sample listing
type the two fields hold its alias and unit type and other fields are
untouched. -/
theorem handleOnChange_frame_witness :
    sampleNewState "transactionProcessAlias" = some sampleListingType.transactionProcessAlias ∧
    sampleNewState "unitType" = some sampleListingType.unitType ∧
    ∀ k, k ≠ "transactionProcessAlias" → k ≠ "unitType" →
      sampleNewState k = sampleFormState k :=
  handleOnChange_frame [sampleListingType] true sampleFormState "rent-bicycles"
    sampleListingType (by decide) sampleNewState
    (some "flex-booking-default/release-1") (by rfl)

/-- C8: `handleOnChange` succeeds exactly when the value matches the
listingType of some entry; for a value matching no entry the unguarded
dereference of the `find` result fails. -/
theorem handleOnChange_guard (listingTypes : List ListingTypeConfig)
    (hasOnProcessChange : Bool) (formState : FormState) (value : String) :
    (handleOnChange listingTypes hasOnProcessChange formState value).isSome = true ↔
      ∃ cfg ∈ listingTypes, cfg.listingType = value := by
  cases hfind : listingTypes.find? (fun config => config.listingType == value) with
  | none =>
    simp only [handleOnChange, hfind, Option.isSome_none, Bool.false_eq_true, false_iff]
    rintro ⟨cfg, hmem, hval⟩
    have hnone := List.find?_eq_none.mp hfind cfg hmem
    simp [hval] at hnone
  | some cfg =>
    simp only [handleOnChange, hfind, Option.isSome_some, true_iff]
    refine ⟨cfg, List.mem_of_find?_eq_some hfind, ?_⟩
    have := List.find?_some hfind
    simpa using this

/-- C4: `FieldSelectListingType` renders the interactive select (disabled
placeholder plus one option per configuration, keyed and valued by
listingType and labelled by label, with a required validator) exactly when
more than one listing type is given and none exists yet; with an existing
listing type it renders the read-only heading-plus-value display; with zero
or one listing type it renders only hidden fields. -/
theorem fieldSelectListingType_branches (name : String)
    (listingTypes : List ListingTypeConfig) (hasExistingListingType : Bool)
    (formState : FormState) (intl : Intl) :
    (listingTypes.length > 1 → hasExistingListingType = false →
      FieldSelectListingType name listingTypes hasExistingListingType formState intl =
        [FieldNode.fieldSelect name name
            (intl.formatMessage "EditListingDetailsForm.listingTypeLabel")
            (Validator.required (intl.formatMessage "EditListingDetailsForm.listingTypeRequired"))
            (SelectOption.mk true ""
                (intl.formatMessage "EditListingDetailsForm.listingTypePlaceholder")
              :: listingTypes.map fun config =>
                  SelectOption.mk false config.listingType config.label),
          FieldNode.fieldHidden "transactionProcessAlias",
          FieldNode.fieldHidden "unitType"]) ∧
    (listingTypes.length > 1 → hasExistingListingType = true →
      FieldSelectListingType name listingTypes hasExistingListingType formState intl =
        [FieldNode.headingWithValue
            (intl.formatMessage "EditListingDetailsForm.listingTypeLabel") (formState name),
          FieldNode.fieldHidden name,
          FieldNode.fieldHidden "transactionProcessAlias",
          FieldNode.fieldHidden "unitType"]) ∧
    (listingTypes.length ≤ 1 →
      FieldSelectListingType name listingTypes hasExistingListingType formState intl =
        [FieldNode.fieldHidden name,
          FieldNode.fieldHidden "transactionProcessAlias",
          FieldNode.fieldHidden "unitType"]) := by
  refine ⟨fun hlen hex => ?_, fun hlen hex => ?_, fun hlen => ?_⟩
  · subst hex
    simp [FieldSelectListingType, hlen]
  · subst hex
    simp [FieldSelectListingType, hlen]
  · have hnot : ¬ listingTypes.length > 1 := by omega
    simp [FieldSelectListingType, hnot]

/-- Witness for C4 at a concrete input: with two listing types and no
existing one, the interactive select with its placeholder, two options and
required validator is rendered. -/
theorem fieldSelectListingType_branches_witness :
    FieldSelectListingType "listingType" [sampleListingType, sampleListingType2] false
        sampleFormState testIntl =
      [FieldNode.fieldSelect "listingType" "listingType"
          "EditListingDetailsForm.listingTypeLabel"
          (Validator.required "EditListingDetailsForm.listingTypeRequired")
          [SelectOption.mk true "" "EditListingDetailsForm.listingTypePlaceholder",
            SelectOption.mk false "rent-bicycles" "Rent bicycles",
            SelectOption.mk false "sell-bicycles" "Sell bicycles"],
        FieldNode.fieldHidden "transactionProcessAlias",
        FieldNode.fieldHidden "unitType"] :=
  (fieldSelectListingType_branches "listingType" [sampleListingType, sampleListingType2]
      false sampleFormState testIntl).1 (by decide) rfl

/-- C9: every branch of `FieldSelectListingType` renders hidden fields named
transactionProcessAlias and unitType, and both branches without the
interactive select render a hidden field for the listing-type name as
well. -/
theorem fieldSelectListingType_hidden (name : String)
    (listingTypes : List ListingTypeConfig) (hasExistingListingType : Bool)
    (formState : FormState) (intl : Intl) :
    FieldNode.fieldHidden "transactionProcessAlias" ∈
        FieldSelectListingType name listingTypes hasExistingListingType formState intl ∧
    FieldNode.fieldHidden "unitType" ∈
        FieldSelectListingType name listingTypes hasExistingListingType formState intl ∧
    (¬(listingTypes.length > 1 ∧ hasExistingListingType = false) →
      FieldNode.fieldHidden name ∈
        FieldSelectListingType name listingTypes hasExistingListingType formState intl) := by
  by_cases hlen : listingTypes.length > 1
  · cases hasExistingListingType with
    | false => simp [FieldSelectListingType, hlen]
    | true => simp [FieldSelectListingType, hlen]
  · cases hasExistingListingType with
    | false => simp [FieldSelectListingType, hlen]
    | true => simp [FieldSelectListingType, hlen]

/-- Witness for C9 at a concrete input: with a single listing type the
hidden listing-type field is rendered. -/
theorem fieldSelectListingType_hidden_witness :
    FieldNode.fieldHidden "listingType" ∈
      FieldSelectListingType "listingType" [sampleListingType] false sampleFormState testIntl :=
  (fieldSelectListingType_hidden "listingType" [sampleListingType] false sampleFormState
      testIntl).2.2 (by decide)

/-- C6: the title field is validated by the composition of a required
validator and a max-length validator with limit TITLE_MAX_LENGTH = 60 and
carries maxLength 60; the description field is validated by a required
validator alone; each validator carries its internationalized message. -/
theorem titleAndDescriptionValidation {α : Type} (EXTENDED_DATA_SCHEMA_TYPES : List String)
    (p : FormRenderProps α) :
    TITLE_MAX_LENGTH = 60 ∧
    (EditListingDetailsFormComponent EXTENDED_DATA_SCHEMA_TYPES p).title.validate =
      Validator.composeValidators
        (Validator.required (p.intl.formatMessage "EditListingDetailsForm.titleRequired"))
        (Validator.maxLength
          (p.intl.formatMessageWithMaxLength "EditListingDetailsForm.maxLength" 60) 60) ∧
    (EditListingDetailsFormComponent EXTENDED_DATA_SCHEMA_TYPES p).title.maxLengthAttr =
      some 60 ∧
    (EditListingDetailsFormComponent EXTENDED_DATA_SCHEMA_TYPES p).description.validate =
      Validator.required (p.intl.formatMessage "EditListingDetailsForm.descriptionRequired") :=
  ⟨rfl, rfl, rfl, rfl⟩

/-- C7: the rendered form's onSubmit is exactly the handleSubmit function
supplied by the form-state library's render props, and the only other
submit-related element is the button of type submit that triggers that same
handler. -/
theorem formOnSubmitIsHandleSubmit {α : Type} (EXTENDED_DATA_SCHEMA_TYPES : List String)
    (p : FormRenderProps α) :
    (EditListingDetailsFormComponent EXTENDED_DATA_SCHEMA_TYPES p).onSubmit =
      p.handleSubmit ∧
    (EditListingDetailsFormComponent EXTENDED_DATA_SCHEMA_TYPES p).submitButton.buttonType =
      "submit" :=
  ⟨rfl, rfl⟩

end EditListingDetailsForm
